import Mathlib

/-!
Shallow embedding of the Divya Drishti Braille learner firmware
(`src/divya_drishti1.ino`) and proofs about it.

Conventions of the embedding:
* C `int` values are modelled as `Int`; `unsigned long` millisecond
  timestamps are modelled as `Nat`, with C unsigned subtraction
  `a - b` rendered as truncated `Nat` subtraction (the two agree
  whenever `b ≤ a`, which holds for a monotonic clock).
* Servo writes are modelled as a command trace: a list of
  `(dot, raised)` pairs, one entry per `setDotK(raised)` call, in
  program order.  The physical servo angles are calibration data and
  play no role in the logic.
* The interleaving of the two ISRs and the main loop is modelled by a
  step relation on an explicit `SystemState`; `millis()` is passed in
  as a parameter at each step.  The bounded `delay(...)` calls inside
  one loop iteration are abstracted away: an iteration is atomic at
  its poll time, which only affects which timestamp is recorded, not
  the navigation logic.
-/

namespace DivyaDrishti

/-- Settings::TOTAL_LETTERS. -/
def TOTAL_LETTERS : Int := 26

/-- Settings::DEBOUNCE_DELAY (ms). -/
def DEBOUNCE_DELAY : Nat := 250

/-- Settings::AUDIO_DISPLAY_DELAY (ms): display-hold duration. -/
def AUDIO_DISPLAY_DELAY : Nat := 2000

/-- Settings::INTRO_AUDIO_TRACK. -/
def INTRO_AUDIO_TRACK : Int := 27

/-- One of the six Braille dot actuator channels (servoDot1..servoDot6). -/
inductive Dot where
  | d1 | d2 | d3 | d4 | d5 | d6
  deriving DecidableEq

/-- All six actuator channels. -/
def allDots : List Dot := [.d1, .d2, .d3, .d4, .d5, .d6]

/-- Command trace of `clearAllDots()`: `setDotK(false)` for each of the six
dots, in program order. -/
def clearAllDotsCmds : List (Dot × Bool) :=
  [(.d1, false), (.d2, false), (.d3, false), (.d4, false), (.d5, false), (.d6, false)]

/-- Command trace of `displayBraillePattern(letterNumber)`: the `setDotK(true)`
calls issued by the matching `case` of the `switch`, in program order; the
`switch` has no `default`, so any other argument issues no command. -/
def displayBraillePattern (letterNumber : Int) : List (Dot × Bool) :=
  if letterNumber = 1 then [(.d1, true)]
  else if letterNumber = 2 then [(.d1, true), (.d2, true)]
  else if letterNumber = 3 then [(.d1, true), (.d4, true)]
  else if letterNumber = 4 then [(.d1, true), (.d4, true), (.d5, true)]
  else if letterNumber = 5 then [(.d1, true), (.d5, true)]
  else if letterNumber = 6 then [(.d1, true), (.d2, true), (.d4, true)]
  else if letterNumber = 7 then [(.d1, true), (.d2, true), (.d4, true), (.d5, true)]
  else if letterNumber = 8 then [(.d1, true), (.d2, true), (.d5, true)]
  else if letterNumber = 9 then [(.d2, true), (.d4, true)]
  else if letterNumber = 10 then [(.d2, true), (.d4, true), (.d5, true)]
  else if letterNumber = 11 then [(.d1, true), (.d3, true)]
  else if letterNumber = 12 then [(.d1, true), (.d2, true), (.d3, true)]
  else if letterNumber = 13 then [(.d1, true), (.d3, true), (.d4, true)]
  else if letterNumber = 14 then [(.d1, true), (.d3, true), (.d4, true), (.d5, true)]
  else if letterNumber = 15 then [(.d1, true), (.d3, true), (.d5, true)]
  else if letterNumber = 16 then [(.d1, true), (.d2, true), (.d3, true), (.d4, true)]
  else if letterNumber = 17 then
    [(.d1, true), (.d2, true), (.d3, true), (.d4, true), (.d5, true)]
  else if letterNumber = 18 then [(.d1, true), (.d2, true), (.d3, true), (.d5, true)]
  else if letterNumber = 19 then [(.d2, true), (.d3, true), (.d4, true)]
  else if letterNumber = 20 then [(.d2, true), (.d3, true), (.d4, true), (.d5, true)]
  else if letterNumber = 21 then [(.d1, true), (.d3, true), (.d6, true)]
  else if letterNumber = 22 then [(.d1, true), (.d2, true), (.d3, true), (.d6, true)]
  else if letterNumber = 23 then [(.d2, true), (.d4, true), (.d5, true), (.d6, true)]
  else if letterNumber = 24 then [(.d1, true), (.d3, true), (.d4, true), (.d6, true)]
  else if letterNumber = 25 then
    [(.d1, true), (.d3, true), (.d4, true), (.d5, true), (.d6, true)]
  else if letterNumber = 26 then [(.d1, true), (.d3, true), (.d5, true), (.d6, true)]
  else []

/-- Does the command trace `cmds` ever command dot `d` raised
(i.e. contain a `setDot(d, true)` call)? -/
def cmdsRaise (cmds : List (Dot × Bool)) (d : Dot) : Bool :=
  cmds.any (fun c => c.1 = d ∧ c.2 = true)

/-- Last commanded state of dot `d` after executing trace `cmds`
(`none` when `cmds` never addresses `d`). -/
def lastCmd (cmds : List (Dot × Bool)) (d : Dot) : Option Bool :=
  cmds.foldl (fun acc c => if c.1 = d then some c.2 else acc) none

/-- Command trace of the render sequence executed at startup and at every
transition: `clearAllDots()` followed by `displayBraillePattern(n)`. -/
def renderSeqCmds (n : Int) : List (Dot × Bool) :=
  clearAllDotsCmds ++ displayBraillePattern n

/-- Dot sets of the standard Grade-1 Braille alphabet exactly as the spec
table lists them (spec section 4.1); this definition is written from the
spec wording, independently of `displayBraillePattern`, for refinement
comparison. -/
def specPatternFor (n : Int) : List Dot :=
  if n = 1 then [.d1]
  else if n = 2 then [.d1, .d2]
  else if n = 3 then [.d1, .d4]
  else if n = 4 then [.d1, .d4, .d5]
  else if n = 5 then [.d1, .d5]
  else if n = 6 then [.d1, .d2, .d4]
  else if n = 7 then [.d1, .d2, .d4, .d5]
  else if n = 8 then [.d1, .d2, .d5]
  else if n = 9 then [.d2, .d4]
  else if n = 10 then [.d2, .d4, .d5]
  else if n = 11 then [.d1, .d3]
  else if n = 12 then [.d1, .d2, .d3]
  else if n = 13 then [.d1, .d3, .d4]
  else if n = 14 then [.d1, .d3, .d4, .d5]
  else if n = 15 then [.d1, .d3, .d5]
  else if n = 16 then [.d1, .d2, .d3, .d4]
  else if n = 17 then [.d1, .d2, .d3, .d4, .d5]
  else if n = 18 then [.d1, .d2, .d3, .d5]
  else if n = 19 then [.d2, .d3, .d4]
  else if n = 20 then [.d2, .d3, .d4, .d5]
  else if n = 21 then [.d1, .d3, .d6]
  else if n = 22 then [.d1, .d2, .d3, .d6]
  else if n = 23 then [.d2, .d4, .d5, .d6]
  else if n = 24 then [.d1, .d3, .d4, .d6]
  else if n = 25 then [.d1, .d3, .d4, .d5, .d6]
  else if n = 26 then [.d1, .d3, .d5, .d6]
  else []

/-- Spec-side membership of dot `d` in letter `n`'s pattern. -/
def specMember (n : Int) (d : Dot) : Bool :=
  specPatternFor n |>.any (fun x => x = d)

/-- Position update of `handleNextButton()`: `currentPosition++`, then wrap
`> TOTAL_LETTERS` to 1. -/
def handleNextPos (p : Int) : Int :=
  let p := p + 1
  if p > TOTAL_LETTERS then 1 else p

/-- Position update of `handlePreviousButton()`: `currentPosition--`, then
wrap `< 1` to TOTAL_LETTERS. -/
def handlePrevPos (p : Int) : Int :=
  let p := p - 1
  if p < 1 then TOTAL_LETTERS else p

example : handleNextPos 26 = 1 := by decide
example : handlePrevPos 1 = 26 := by decide
example : cmdsRaise (displayBraillePattern 3) .d4 = true := by decide
example : specMember 3 .d4 = true := by decide
example : lastCmd (renderSeqCmds 1) .d2 = some false := by decide

/-- The mutable state shared by the two ISRs and the main loop: the globals
`currentPosition`, `nextButtonPressed`, `prevButtonPressed`,
`lastActionTime`, `isDisplayingPattern`, plus the two `static unsigned long
lastInterruptTime` locals of `nextButtonISR` / `prevButtonISR`. -/
structure SystemState where
  currentPosition : Int
  nextButtonPressed : Bool
  prevButtonPressed : Bool
  lastActionTime : Nat
  isDisplayingPattern : Bool
  nextLastInterruptTime : Nat
  prevLastInterruptTime : Nat
  deriving DecidableEq

/-- State at the end of `setup()` (successful boot): globals start as
initialised (`currentPosition = 1`, flags false, statics 0), then `setup`
renders letter 1, sets `lastActionTime = millis()` (the boot completion
time `t0`) and `isDisplayingPattern = true`. -/
def initialSystem (t0 : Nat) : SystemState :=
  { currentPosition := 1
    nextButtonPressed := false
    prevButtonPressed := false
    lastActionTime := t0
    isDisplayingPattern := true
    nextLastInterruptTime := 0
    prevLastInterruptTime := 0 }

/-- Embedding of `nextButtonISR()` fired at `millis() = currentTime`: accept the edge
(set the pending flag and record the time) only when more than
DEBOUNCE_DELAY has passed since the last accepted edge. -/
def nextButtonISR (s : SystemState) (currentTime : Nat) : SystemState :=
  if currentTime - s.nextLastInterruptTime > DEBOUNCE_DELAY then
    { s with nextButtonPressed := true, nextLastInterruptTime := currentTime }
  else s

/-- Embedding of `prevButtonISR()` fired at `millis() = currentTime`. -/
def prevButtonISR (s : SystemState) (currentTime : Nat) : SystemState :=
  if currentTime - s.prevLastInterruptTime > DEBOUNCE_DELAY then
    { s with prevButtonPressed := true, prevLastInterruptTime := currentTime }
  else s

/-- Embedding of `handleNextButton()`: advance `currentPosition` with wraparound, then
(render and audio side effects are traced by `renderSeqCmds`) set
`lastActionTime = millis()` and re-enter the display hold. -/
def handleNextButton (s : SystemState) (now : Nat) : SystemState :=
  { s with currentPosition := handleNextPos s.currentPosition
           lastActionTime := now
           isDisplayingPattern := true }

/-- Embedding of `handlePreviousButton()`: symmetric to `handleNextButton`. -/
def handlePreviousButton (s : SystemState) (now : Nat) : SystemState :=
  { s with currentPosition := handlePrevPos s.currentPosition
           lastActionTime := now
           isDisplayingPattern := true }

/-- One iteration of `loop()` polled at `millis() = now`: end the display
hold once AUDIO_DISPLAY_DELAY has elapsed; when not displaying, atomically
read-and-clear both pending flags (the `noInterrupts`/`interrupts` critical
section) and run the two handlers on the snapshot, NEXT first then PREV. -/
def loopIter (s : SystemState) (now : Nat) : SystemState :=
  let s :=
    if s.isDisplayingPattern ∧ AUDIO_DISPLAY_DELAY ≤ now - s.lastActionTime then
      { s with isDisplayingPattern := false }
    else s
  if s.isDisplayingPattern then s
  else
    let nextPressed := s.nextButtonPressed
    let prevPressed := s.prevButtonPressed
    let s := { s with nextButtonPressed := false, prevButtonPressed := false }
    let s := if nextPressed then handleNextButton s now else s
    if prevPressed then handlePreviousButton s now else s

/-- Fold `loopIter` over a list of successive poll times. -/
def runLoop (s : SystemState) (polls : List Nat) : SystemState :=
  polls.foldl loopIter s

/-- Fold `nextButtonISR` over a list of successive raw-edge times. -/
def runNextISR (s : SystemState) (edges : List Nat) : SystemState :=
  edges.foldl nextButtonISR s

/-- Number of raw edges the debounce condition accepts, starting from last
accepted time `last0`, processing edge times in order with exactly the
ISR's update rule (accepted edges advance the reference time, rejected
ones do not). -/
def acceptedEdges (last0 : Nat) : List Nat → Nat
  | [] => 0
  | t :: ts =>
      if t - last0 > DEBOUNCE_DELAY then acceptedEdges t ts + 1
      else acceptedEdges last0 ts

/-- A representative `READY` machine state: display hold over, no pending
input, letter A current (all reference times 0). -/
def readyState : SystemState :=
  { currentPosition := 1
    nextButtonPressed := false
    prevButtonPressed := false
    lastActionTime := 0
    isDisplayingPattern := false
    nextLastInterruptTime := 0
    prevLastInterruptTime := 0 }

/-- Every state reachable in the concurrent system: the state `setup()`
leaves behind (for any boot completion time), closed under main-loop
iterations and ISR firings at arbitrary times. -/
inductive Reachable : SystemState → Prop where
  | boot (t0 : Nat) : Reachable (initialSystem t0)
  | loopStep {s : SystemState} (now : Nat) : Reachable s → Reachable (loopIter s now)
  | nextIsr {s : SystemState} (t : Nat) : Reachable s → Reachable (nextButtonISR s t)
  | prevIsr {s : SystemState} (t : Nat) : Reachable s → Reachable (prevButtonISR s t)

/-- Observable outcome of `setup()`, tracking the order-of-events facts the
boot sequence determines: whether `attachInterrupt` ran (initializeButtons),
whether the servos were attached (initializeServos), whether the DFPlayer
failure diagnostic was printed, whether execution is stuck in the
`while (1)` halt loop of initializeDFPlayer, which letters were rendered
(`displayBraillePattern` calls) and which audio tracks requested, and
whether `setup()` returned so that `loop()` is entered. -/
structure BootState where
  interruptsAttached : Bool
  servosAttached : Bool
  dfPlayerFailDiagnostic : Bool
  halted : Bool
  renderedLetters : List Int
  playedTracks : List Int
  loopEntered : Bool
  machine : Option SystemState
  deriving DecidableEq

/-- Embedding of `setup()` as a function of whether `dfPlayer.begin(FPSerial)` succeeds
and of the boot completion time `t0` read by the final `millis()` call.
The source order is: initializeButtons (attaches both ISRs), then
initializeServos, then initializeDFPlayer — whose failure branch prints the
diagnostic and enters `while (1) delay(1000)`, never returning — then
clearAllDots, intro track, render letter 1, play track 1, start the hold. -/
def setup (dfPlayerBeginOk : Bool) (t0 : Nat) : BootState :=
  let st : BootState :=
    { interruptsAttached := false, servosAttached := false
      dfPlayerFailDiagnostic := false, halted := false
      renderedLetters := [], playedTracks := [], loopEntered := false
      machine := none }
  let st := { st with interruptsAttached := true }
  let st := { st with servosAttached := true }
  if dfPlayerBeginOk = false then
    { st with dfPlayerFailDiagnostic := true, halted := true }
  else
    { st with playedTracks := [INTRO_AUDIO_TRACK, 1]
              renderedLetters := [1]
              loopEntered := true
              machine := some (initialSystem t0) }

/-! ### Helper lemmas -/

/-- NEXT preserves the range [1, 26]. -/
lemma handleNextPos_range {p : Int} (h1 : 1 ≤ p) (h2 : p ≤ 26) :
    1 ≤ handleNextPos p ∧ handleNextPos p ≤ 26 := by
  simp only [handleNextPos, TOTAL_LETTERS]
  split <;> omega

/-- PREV preserves the range [1, 26]. -/
lemma handlePrevPos_range {p : Int} (h1 : 1 ≤ p) (h2 : p ≤ 26) :
    1 ≤ handlePrevPos p ∧ handlePrevPos p ≤ 26 := by
  simp only [handlePrevPos, TOTAL_LETTERS]
  split <;> omega

/-- The NEXT ISR never touches the letter index. -/
lemma nextButtonISR_currentPosition (s : SystemState) (t : Nat) :
    (nextButtonISR s t).currentPosition = s.currentPosition := by
  simp only [nextButtonISR]
  split <;> rfl

/-- The PREV ISR never touches the letter index. -/
lemma prevButtonISR_currentPosition (s : SystemState) (t : Nat) :
    (prevButtonISR s t).currentPosition = s.currentPosition := by
  simp only [prevButtonISR]
  split <;> rfl

/-- One loop iteration moves the letter index by at most one NEXT step
followed by at most one PREV step. -/
lemma loopIter_currentPosition (s : SystemState) (now : Nat) :
    (loopIter s now).currentPosition = s.currentPosition ∨
    (loopIter s now).currentPosition = handleNextPos s.currentPosition ∨
    (loopIter s now).currentPosition = handlePrevPos s.currentPosition ∨
    (loopIter s now).currentPosition = handlePrevPos (handleNextPos s.currentPosition) := by
  simp only [loopIter, handleNextButton, handlePreviousButton]
  repeat' split
  all_goals simp_all

/-- A loop iteration preserves the range [1, 26] of the letter index. -/
lemma loopIter_pos_range (s : SystemState) (now : Nat)
    (h1 : 1 ≤ s.currentPosition) (h2 : s.currentPosition ≤ 26) :
    1 ≤ (loopIter s now).currentPosition ∧ (loopIter s now).currentPosition ≤ 26 := by
  rcases loopIter_currentPosition s now with h | h | h | h <;> rw [h]
  · exact ⟨h1, h2⟩
  · exact handleNextPos_range h1 h2
  · exact handlePrevPos_range h1 h2
  · exact handlePrevPos_range (handleNextPos_range h1 h2).1 (handleNextPos_range h1 h2).2

/-! ### Claim theorems -/

/-- C1: every reachable state of the system has its letter index
`currentPosition` in [1, 26]: it starts at 1 after `setup()`, the only
mutations are the NEXT transition (+1, wrapping 27 to 1) and the PREV
transition (-1, wrapping 0 to 26), both of which preserve the range, and
the ISRs never touch it; no out-of-range value ever occurs. -/
theorem reachable_currentPosition_in_range (s : SystemState) (h : Reachable s) :
    1 ≤ s.currentPosition ∧ s.currentPosition ≤ 26 := by
  induction h with
  | boot t0 => exact ⟨le_refl 1, by norm_num [initialSystem]⟩
  | loopStep now _ ih => exact loopIter_pos_range _ _ ih.1 ih.2
  | nextIsr t _ ih => rw [nextButtonISR_currentPosition]; exact ih
  | prevIsr t _ ih => rw [prevButtonISR_currentPosition]; exact ih

/-- C1 witness: the boot state at time 0 is reachable and in range. -/
theorem reachable_currentPosition_in_range_witness :
    1 ≤ (initialSystem 0).currentPosition ∧ (initialSystem 0).currentPosition ≤ 26 :=
  reachable_currentPosition_in_range (initialSystem 0) (Reachable.boot 0)

/-- C2: for every letter index in [1, 26] and every dot channel,
`displayBraillePattern` commands the channel raised exactly when the spec
table of section 4.1 lists that dot for that letter (exhaustive check of
all 26 times 6 cases). -/
theorem displayBraillePattern_matches_spec_table (n : Int)
    (h1 : 1 ≤ n) (h2 : n ≤ 26) (d : Dot) :
    cmdsRaise (displayBraillePattern n) d = specMember n d := by
  interval_cases n <;> cases d <;> decide

/-- C2 witness: letter C (3) raises dot 4. -/
theorem displayBraillePattern_matches_spec_table_witness :
    (1 : Int) ≤ 3 ∧ (3 : Int) ≤ 26 ∧
      cmdsRaise (displayBraillePattern 3) Dot.d4 = specMember 3 Dot.d4 :=
  ⟨by decide, by decide,
    displayBraillePattern_matches_spec_table 3 (by decide) (by decide) Dot.d4⟩

/-- C3: NEXT from 26 wraps to 1 and PREV from 1 wraps to 26. -/
theorem next_prev_wraparound_boundary :
    handleNextPos 26 = 1 ∧ handlePrevPos 1 = 26 := by decide

set_option maxRecDepth 4000 in
/-- C9: 26 consecutive NEXT transitions from 1 return to 1, and likewise
26 consecutive PREV transitions. -/
theorem full_cycle_round_trip :
    handleNextPos^[26] 1 = 1 ∧ handlePrevPos^[26] 1 = 1 := by decide

/-- C4: when both pending flags are set at a poll in the READY state, the
iteration applies NEXT first and then PREV to the already-updated index
(both in the same poll, not an exclusive choice); at index 5 the net
result is 5 again. -/
theorem simultaneous_next_prev_sequential (s : SystemState) (now : Nat)
    (hd : s.isDisplayingPattern = false)
    (hn : s.nextButtonPressed = true) (hp : s.prevButtonPressed = true) :
    (loopIter s now).currentPosition = handlePrevPos (handleNextPos s.currentPosition) ∧
    handlePrevPos (handleNextPos 5) = 5 := by
  refine ⟨?_, by decide⟩
  simp [loopIter, handleNextButton, handlePreviousButton, hd, hn, hp]

/-- C4 witness: from READY at index 5 with both flags set, the poll ends
back at index 5. -/
theorem simultaneous_next_prev_sequential_witness :
    (loopIter { readyState with currentPosition := 5, nextButtonPressed := true,
                                prevButtonPressed := true } 0).currentPosition = 5 := by
  have h := simultaneous_next_prev_sequential
    { readyState with currentPosition := 5, nextButtonPressed := true,
                      prevButtonPressed := true } 0 rfl rfl rfl
  rw [h.1]; decide

/-- C5: for each button's ISR, a raw edge at time `t` sets the pending flag
and records `t` exactly when `t` minus the last accepted time exceeds
DEBOUNCE_DELAY, and otherwise leaves the whole state (flag and timestamp)
unchanged; two raw edges 100 ms apart yield one accepted event, two edges
300 ms apart yield two. -/
theorem debounce_accepts_iff_window_exceeded (s : SystemState) (t : Nat) :
    (t - s.nextLastInterruptTime > DEBOUNCE_DELAY →
      nextButtonISR s t =
        { s with nextButtonPressed := true, nextLastInterruptTime := t }) ∧
    (¬ t - s.nextLastInterruptTime > DEBOUNCE_DELAY → nextButtonISR s t = s) ∧
    (t - s.prevLastInterruptTime > DEBOUNCE_DELAY →
      prevButtonISR s t =
        { s with prevButtonPressed := true, prevLastInterruptTime := t }) ∧
    (¬ t - s.prevLastInterruptTime > DEBOUNCE_DELAY → prevButtonISR s t = s) ∧
    acceptedEdges 0 [1000, 1100] = 1 ∧ acceptedEdges 0 [1000, 1300] = 2 := by
  refine ⟨fun h => ?_, fun h => ?_, fun h => ?_, fun h => ?_, by decide, by decide⟩ <;>
    simp [nextButtonISR, prevButtonISR, h]

/-- C5 witness: from the boot state, an edge at t = 1000 is accepted. -/
theorem debounce_accepts_iff_window_exceeded_witness :
    nextButtonISR (initialSystem 0) 1000 =
      { initialSystem 0 with nextButtonPressed := true, nextLastInterruptTime := 1000 } :=
  (debounce_accepts_iff_window_exceeded (initialSystem 0) 1000).1 (by decide)

/-- C6: a debounce-accepted press during the DISPLAYING hold is deferred,
never lost: a poll inside the hold window changes nothing at all (the
pending flag stays set and unconsumed), and the first poll at or after the
hold elapses consumes the flag and applies the transition; concretely, a
press at 500 ms into the boot 2000 ms hold survives polls at 510, 1000 and
1999 ms and is processed at the 2000 ms poll, advancing A to B. -/
theorem press_during_hold_deferred_not_lost :
    (∀ (s : SystemState) (now : Nat), s.isDisplayingPattern = true →
        now - s.lastActionTime < AUDIO_DISPLAY_DELAY → loopIter s now = s) ∧
    (∀ (s : SystemState) (now : Nat), s.isDisplayingPattern = true →
        AUDIO_DISPLAY_DELAY ≤ now - s.lastActionTime →
        s.nextButtonPressed = true → s.prevButtonPressed = false →
        (loopIter s now).currentPosition = handleNextPos s.currentPosition ∧
        (loopIter s now).nextButtonPressed = false) ∧
    (nextButtonISR (initialSystem 0) 500).nextButtonPressed = true ∧
    runLoop (nextButtonISR (initialSystem 0) 500) [510, 1000, 1999] =
      nextButtonISR (initialSystem 0) 500 ∧
    (loopIter (nextButtonISR (initialSystem 0) 500) 2000).currentPosition = 2 := by
  refine ⟨?_, ?_, by decide, by decide, by decide⟩
  · intro s now hd hlt
    have hnle : ¬ AUDIO_DISPLAY_DELAY ≤ now - s.lastActionTime := by omega
    simp [loopIter, hd, hnle]
  · intro s now hd hle hn hp
    simp [loopIter, handleNextButton, hd, hle, hn, hp]

/-- C6 witness: a poll 100 ms into the boot hold changes nothing. -/
theorem press_during_hold_deferred_not_lost_witness :
    loopIter (initialSystem 0) 100 = initialSystem 0 :=
  press_during_hold_deferred_not_lost.1 (initialSystem 0) 100 rfl (by decide)

/-- C7 counterexample: on a failed `dfPlayer.begin`, the system does halt
with the loop never entered — but `attachInterrupt` in
`initializeButtons()` has already run (setup calls it before
`initializeDFPlayer()`), so the button interrupts are live during the
halt, contradicting the claim that the interrupts are never reached. -/
theorem halted_boot_has_interrupts_attached :
    (setup false 0).halted = true ∧ (setup false 0).loopEntered = false ∧
    (setup false 0).interruptsAttached = true := by decide

/-- C7 amended: on a failed `dfPlayer.begin`, setup emits the diagnostic
and halts indefinitely with the main loop never entered, no letter ever
rendered and no track played — but with the button interrupts already
attached (they were installed before the audio check and stay enabled
during the halt). -/
theorem audio_init_failure_halts_before_loop (t0 : Nat) :
    setup false t0 =
      { interruptsAttached := true, servosAttached := true
        dfPlayerFailDiagnostic := true, halted := true
        renderedLetters := [], playedTracks := [], loopEntered := false
        machine := none } := rfl

/-- C8 counterexample: `displayBraillePattern` alone does not drive all six
channels: for letter 1 (A), channel dot 2 is a non-member and receives no
`setDot` call at all (rather than a lowering call). -/
theorem displayBraillePattern_alone_skips_nonmembers :
    lastCmd (displayBraillePattern 1) Dot.d2 = none ∧
    (displayBraillePattern 1).all (fun c => decide (c.1 ≠ Dot.d2)) = true := by decide

/-- C8 amended: the render sequence actually executed at startup and at
every transition — `clearAllDots()` followed by `displayBraillePattern` —
leaves every one of the six channels last commanded to exactly its
membership in the letter's dot pattern (non-members lowered by the clear,
members subsequently raised), so the commanded state of every channel
after that sequence depends only on the letter index. -/
theorem render_sequence_drives_all_channels (n : Int)
    (h1 : 1 ≤ n) (h2 : n ≤ 26) (d : Dot) :
    lastCmd (renderSeqCmds n) d = some (specMember n d) := by
  interval_cases n <;> cases d <;> decide

/-- C8 amended witness: after clear + display of letter A, dot 2's last
command is lowered, matching non-membership. -/
theorem render_sequence_drives_all_channels_witness :
    (1 : Int) ≤ 1 ∧ (1 : Int) ≤ 26 ∧
      lastCmd (renderSeqCmds 1) Dot.d2 = some (specMember 1 Dot.d2) :=
  ⟨by decide, by decide,
    render_sequence_drives_all_channels 1 (by decide) (by decide) Dot.d2⟩

/-- Any run of NEXT raw edges leaves the pending flag equal to its old
value or-ed with "at least one edge was accepted": the boolean flag
saturates, keeping no count. -/
lemma runNextISR_flag (s : SystemState) (edges : List Nat) :
    (runNextISR s edges).nextButtonPressed =
      (s.nextButtonPressed || decide (0 < acceptedEdges s.nextLastInterruptTime edges)) := by
  induction edges generalizing s with
  | nil => simp [runNextISR, acceptedEdges]
  | cons e es ih =>
    have hstep : runNextISR s (e :: es) = runNextISR (nextButtonISR s e) es := rfl
    by_cases h : e - s.nextLastInterruptTime > DEBOUNCE_DELAY
    · have he : nextButtonISR s e =
          { s with nextButtonPressed := true, nextLastInterruptTime := e } := by
        simp [nextButtonISR, h]
      rw [hstep, he, ih]
      simp [acceptedEdges, h]
    · have he : nextButtonISR s e = s := by simp [nextButtonISR, h]
      rw [hstep, he, ih]
      simp [acceptedEdges, h]

/-- C10: accepted presses of the same button between two polls coalesce
into the single boolean pending flag (the flag after any edge run is its
old value or-ed with "some edge accepted" — no count is kept), and one
READY poll applies at most one NEXT and one PREV transition no matter how
many presses were accepted; concretely, three accepted NEXT presses
(edges at 1000, 1400, 1800 ms) leave one set flag and advance the letter
by exactly one step at the next poll. -/
theorem presses_coalesce_one_transition_per_poll :
    (∀ (s : SystemState) (edges : List Nat),
        (runNextISR s edges).nextButtonPressed =
          (s.nextButtonPressed ||
            decide (0 < acceptedEdges s.nextLastInterruptTime edges))) ∧
    (∀ (s : SystemState) (now : Nat), s.isDisplayingPattern = false →
        (loopIter s now).currentPosition =
          (if s.prevButtonPressed then handlePrevPos else id)
            ((if s.nextButtonPressed then handleNextPos else id) s.currentPosition)) ∧
    acceptedEdges 0 [1000, 1400, 1800] = 3 ∧
    runNextISR readyState [1000, 1400, 1800] =
      { readyState with nextButtonPressed := true, nextLastInterruptTime := 1800 } ∧
    (loopIter (runNextISR readyState [1000, 1400, 1800]) 2000).currentPosition =
      handleNextPos readyState.currentPosition := by
  refine ⟨runNextISR_flag, ?_, by decide, by decide, by decide⟩
  intro s now hd
  cases hn : s.nextButtonPressed <;> cases hp : s.prevButtonPressed <;>
    simp [loopIter, handleNextButton, handlePreviousButton, hd, hn, hp]

/-- C10 witness: a poll of the quiescent READY state applies no
transition, matching the at-most-one-per-flag characterisation. -/
theorem presses_coalesce_one_transition_per_poll_witness :
    (loopIter readyState 0).currentPosition =
      (if readyState.prevButtonPressed then handlePrevPos else id)
        ((if readyState.nextButtonPressed then handleNextPos else id)
          readyState.currentPosition) :=
  presses_coalesce_one_transition_per_poll.2.1 readyState 0 rfl

end DivyaDrishti
